import Mathlib

/-!
Verification of the Preview Session Supervisor of the GoCode repository
(`services/preview.go`) against its natural-language specification.

The Go code is shallowly embedded:
* `extractPort` and the two readiness regular expressions are embedded via a
  small executable backtracking regex engine (`RE`, `reRun`) with Go's
  leftmost-first match semantics; the two patterns are transcribed exactly as
  the Go `regexp.MustCompile` calls interpret the raw-string literals at
  `preview.go:62-63` (note: the raw strings contain doubled backslashes, so
  `\\.`, `\\d`, `\\b` denote a literal backslash followed by `.`/`d`/`b`).
* the stateful service is embedded as explicit state passing over the session
  registry (an association list modelling the Go map), with an `Env` oracle
  supplying the outcomes of subprocess operations (file stat, pipe creation,
  process start, the readiness race, `os.Getenv`, `exec.LookPath`), and an
  explicit `Action` trace recording the process side effects (spawn, kill,
  context cancellation, tailscale configuration calls).
-/

namespace GoCode

/-- Result of one backtracking step: the character preceding the remaining
input (needed for word boundaries), the remaining input, and the capture of
group 1 if it was set. -/
abbrev MRes := Option Char × List Char × Option (List Char)

/-- Regular-expression abstract syntax, covering exactly the constructs used
by the two patterns compiled in `Configure` (`preview.go:62-63`) and their
spec-intended variants: literal characters (case-sensitive and insensitive),
`.`, character classes, concatenation, alternation, greedy `*`, the word
boundary, and the single capturing group. -/
inductive RE where
  | eps
  | chr (c : Char)
  | chrCI (c : Char)
  | anyc
  | cls (cs : List Char) (neg : Bool)
  | wordB
  | seq (a b : RE)
  | alt (a b : RE)
  | star (r : RE)
  | grp (r : RE)
deriving DecidableEq

/-- Word characters for the regex word boundary (`\w` = `[0-9A-Za-z_]`). -/
def isWordChar (c : Char) : Bool := c.isAlphanum || c = '_'

/-- Merge two group-1 captures, preferring the first (the capture produced by
the later part of a concatenation). At most one is ever set in the patterns
embedded here, which contain a single group. -/
def capJoin (a b : Option (List Char)) : Option (List Char) :=
  match a with
  | some x => some x
  | none => b

/-- Backtracking matcher. Returns all ways the expression can match a prefix
of `cs` (given the preceding character `prev`), in backtracking priority
order: the head of the list is what a Perl-style leftmost-first engine (the
semantics documented for Go's `regexp`) finds first. `fuel` bounds the
recursion; every call below is made with ample fuel, and running out yields
no matches. -/
def reRun : Nat → RE → Option Char → List Char → List MRes
  | 0, _, _, _ => []
  | _ + 1, .eps, prev, cs => [(prev, cs, none)]
  | _ + 1, .chr _, _, [] => []
  | _ + 1, .chr a, _, c :: t => if c = a then [(some c, t, none)] else []
  | _ + 1, .chrCI _, _, [] => []
  | _ + 1, .chrCI a, _, c :: t =>
      if c.toLower = a.toLower then [(some c, t, none)] else []
  | _ + 1, .anyc, _, [] => []
  | _ + 1, .anyc, _, c :: t => if c = '\n' then [] else [(some c, t, none)]
  | _ + 1, .cls _ _, _, [] => []
  | _ + 1, .cls set neg, _, c :: t =>
      if (set.contains c) != neg then [(some c, t, none)] else []
  | _ + 1, .wordB, prev, cs =>
      let pw := match prev with
        | some p => isWordChar p
        | none => false
      let nw := match cs with
        | c :: _ => isWordChar c
        | [] => false
      if pw != nw then [(prev, cs, none)] else []
  | fuel + 1, .seq a b, prev, cs =>
      (reRun fuel a prev cs).flatMap fun r =>
        (reRun fuel b r.1 r.2.1).map fun r2 =>
          (r2.1, r2.2.1, capJoin r2.2.2 r.2.2)
  | fuel + 1, .alt a b, prev, cs =>
      reRun fuel a prev cs ++ reRun fuel b prev cs
  | fuel + 1, .star r, prev, cs =>
      ((reRun fuel r prev cs).flatMap fun res =>
        if res.2.1.length < cs.length then
          (reRun fuel (.star r) res.1 res.2.1).map fun r2 =>
            (r2.1, r2.2.1, capJoin r2.2.2 res.2.2)
        else []) ++ [(prev, cs, none)]
  | fuel + 1, .grp r, prev, cs =>
      (reRun fuel r prev cs).map fun res =>
        (res.1, res.2.1, some (cs.take (cs.length - res.2.1.length)))

/-- Leftmost search: try the pattern at each successive start position,
keeping track of the preceding character; at the first position where the
pattern matches, return the first (backtracking-priority) result's group-1
capture. This mirrors `Regexp.FindStringSubmatch` restricted to one group. -/
def reFindAux (r : RE) (prev : Option Char) (cs : List Char) :
    Option (Option (List Char)) :=
  match reRun (4 * cs.length + 200) r prev cs with
  | res :: _ => some res.2.2
  | [] =>
    match cs with
    | [] => none
    | c :: t => reFindAux r (some c) t

/-- Model of Go `re.FindStringSubmatch(line)` for a pattern with exactly one
capturing group: `none` when there is no match (Go returns `nil`, so
`len(matches) == 2` is false); `some cap` when a match exists, where `cap` is
the group-1 capture (the empty string when the group did not participate,
matching Go's behaviour). -/
def findStringSubmatch1 (r : RE) (s : String) : Option String :=
  match reFindAux r none s.toList with
  | none => none
  | some none => some ""
  | some (some cap) => some (String.mk cap)

/-- Concatenation of a list of expressions. -/
def reSeqL (rs : List RE) : RE := rs.foldr RE.seq .eps

/-- Literal string as a regex (case-sensitive). -/
def reStr (s : String) : RE := reSeqL (s.toList.map RE.chr)

/-- Literal string as a regex (case-insensitive, for patterns under `(?i)`). -/
def reStrCI (s : String) : RE := reSeqL (s.toList.map RE.chrCI)

/-- Greedy `r+` as `r r*`. -/
def rePlus (r : RE) : RE := .seq r (.star r)

/-- Greedy `r?` as `r | eps`. -/
def reOpt (r : RE) : RE := .alt r .eps

/-- The decimal digit characters, for `[0-9]` and `\d`. -/
def digitChars : List Char := "0123456789".toList

/-- The raw-string fragment `\\.` as Go's regexp engine interprets it: a
literal backslash (from `\\`) followed by `.` (any character). -/
def bslashDot : RE := .seq (.chr '\\') .anyc

/-- The pattern compiled at `preview.go:62`. The Go source is the raw string
`` http://(?:localhost|127\\.0\\.0\\.1|0\\.0\\.0\\.0|\\[::1\\]):(\\d+) ``; a
raw (backtick) string keeps both backslashes, so `\\` is the regex escape for
one literal backslash: the third alternative is `\` followed by the class
`[::1\]` (one of `:`, `1`, `\`), and the group is `\` followed by one or more
literal `d` characters. -/
def devURLRe : RE :=
  reSeqL
    [reStr "http://",
     .alt (reStr "localhost")
       (.alt (reSeqL [reStr "127", bslashDot, reStr "0", bslashDot,
                      reStr "0", bslashDot, reStr "1"])
         (.alt (reSeqL [reStr "0", bslashDot, reStr "0", bslashDot,
                        reStr "0", bslashDot, reStr "0"])
           (.seq (.chr '\\') (.cls [':', '1', '\\'] false)))),
     .chr ':',
     .grp (.seq (.chr '\\') (rePlus (.chr 'd')))]

/-- The pattern compiled at `preview.go:63`. The Go source is the raw string
`` (?i)\\b(?:port|listening)\\b[^0-9]*(\\d{2,5}) ``; under raw-string rules
`\\b` is a literal backslash followed by the letter `b` (case-insensitive
under `(?i)`), and the group is a literal backslash followed by two to five
`d`/`D` characters. -/
def portLineRe : RE :=
  reSeqL
    [.chr '\\', .chrCI 'b',
     .alt (reStrCI "port") (reStrCI "listening"),
     .chr '\\', .chrCI 'b',
     .star (.cls digitChars true),
     .grp (reSeqL [.chr '\\', .chrCI 'd', .chrCI 'd',
       reOpt (.seq (.chrCI 'd') (reOpt (.seq (.chrCI 'd') (reOpt (.chrCI 'd')))))])]

/-- Numeric value of a digit list (most significant first). -/
def digitsToNat (ds : List Char) : Nat :=
  ds.foldl (fun n c => n * 10 + (c.toNat - '0'.toNat)) 0

/-- Model of Go `strconv.Atoi`: an optional sign followed by one or more
decimal digits; anything else is an error (`none`). The 64-bit range check is
omitted; all values arising here are tiny. -/
def goAtoi (s : String) : Option Int :=
  match s.toList with
  | [] => none
  | c :: rest =>
    let signed := c = '-' || c = '+'
    let ds := if signed then rest else c :: rest
    if ds.isEmpty then none
    else if ds.all Char.isDigit then
      some (if c = '-' then -(digitsToNat ds : Int) else (digitsToNat ds : Int))
    else none

/-- Model of Go `strings.TrimSpace`: drop whitespace from both ends. Go trims
Unicode White_Space; `Char.isWhitespace` agrees on the ASCII values these
claims concern. -/
def goTrimSpace (s : String) : String :=
  String.mk (((s.toList.dropWhile Char.isWhitespace).reverse.dropWhile
    Char.isWhitespace).reverse)

/-- Model of Go `strings.ToLower`: lowercase each character. Go lowercases
Unicode; `Char.toLower` agrees on the ASCII values these claims concern. -/
def goToLower (s : String) : String :=
  String.mk (s.toList.map Char.toLower)

/-- Second half of `extractPort` (`preview.go:303-310`): the fallback
`portLineRe` probe followed by the final `return 0`. -/
def extractPortFallback (line : String) : Int :=
  match findStringSubmatch1 portLineRe line with
  | some cap =>
    match goAtoi cap with
    | some port => port
    | none => 0
  | none => 0

/-- Embedding of `extractPort` (`preview.go:295-311`): probe `devURLRe`
first; if it produced a submatch whose group parses as an integer, return it;
otherwise fall through to the `portLineRe` probe; otherwise 0. (The compiled
regexes are never nil after `Configure`, so the nil guards are vacuous.) -/
def extractPort (line : String) : Int :=
  match findStringSubmatch1 devURLRe line with
  | some cap =>
    match goAtoi cap with
    | some port => port
    | none => extractPortFallback line
  | none => extractPortFallback line

/-- Modelled from the spec: the loopback-URL readiness pattern as §4.3 words
it, `http://{localhost|127.0.0.1|0.0.0.0|[::1]}:<digits>` — literal dots and
brackets, and a group of real digits. This is the pattern the raw-string
literal at `preview.go:62` was evidently intended to compile. -/
def devURLReIntended : RE :=
  reSeqL
    [reStr "http://",
     .alt (reStr "localhost")
       (.alt (reStr "127.0.0.1") (.alt (reStr "0.0.0.0") (reStr "[::1]"))),
     .chr ':',
     .grp (rePlus (.cls digitChars false))]

/-- Modelled from the spec: the fallback readiness pattern as §4.3 words it —
a case-insensitive word `port` or `listening` (word-bounded) followed
eventually by a 2–5 digit number, i.e. the regex
`(?i)\b(?:port|listening)\b[^0-9]*(\d{2,5})` the raw-string literal at
`preview.go:63` was evidently intended to compile. -/
def portLineReIntended : RE :=
  reSeqL
    [.wordB,
     .alt (reStrCI "port") (reStrCI "listening"),
     .wordB,
     .star (.cls digitChars true),
     .grp (reSeqL [.cls digitChars false, .cls digitChars false,
       reOpt (.seq (.cls digitChars false)
         (reOpt (.seq (.cls digitChars false) (reOpt (.cls digitChars false)))))])]

/-- Modelled from the spec: `extractPort` with the two intended patterns in
the same first-match-wins order. -/
def extractPortIntended (line : String) : Int :=
  match findStringSubmatch1 devURLReIntended line with
  | some cap =>
    match goAtoi cap with
    | some port => port
    | none =>
      match findStringSubmatch1 portLineReIntended line with
      | some cap2 =>
        match goAtoi cap2 with
        | some port => port
        | none => 0
      | none => 0
  | none =>
    match findStringSubmatch1 portLineReIntended line with
    | some cap2 =>
      match goAtoi cap2 with
      | some port => port
      | none => 0
    | none => 0

/-- Embedding of `topicKey` (`git.go:676-678`): `fmt.Sprintf("%d:%d", chatID,
threadID)`. Go `int64`/`int` are modelled as unbounded `Int`; all values
appearing in this development are far below the 64-bit bounds. -/
def topicKey (chatID : Int) (threadID : Int) : String :=
  toString chatID ++ ":" ++ toString threadID

/-- Embedding of `PreviewSession` (`preview.go:33-48`). Process commands and
cancel functions are modelled as optional handle identifiers: `none` models a
nil `*exec.Cmd` / nil `CancelFunc` (the tailscale backend returns both nil),
`some id` a live handle. `devExit` models the presence of `DevExitCh`. -/
structure PreviewSession where
  chatID : Int
  threadID : Int
  repoPath : String
  tunnel : String
  url : String
  port : Int
  devPid : Option Nat
  devCtx : Option Nat
  devExit : Bool
  tunnelPid : Option Nat
  tunnelCtx : Option Nat
deriving DecidableEq

/-- The session registry (`PreviewService.sessions`, `preview.go:27`): the Go
`map[string]*PreviewSession` is modelled as an association list from the
topic key to the session. -/
abbrev Registry := List (String × PreviewSession)

/-- Map read `svc.sessions[key]`: the Go map yields nil (here `none`) for an
absent key. -/
def regGet : Registry → String → Option PreviewSession
  | [], _ => none
  | (k, v) :: t, key => if k = key then some v else regGet t key

/-- Map delete `delete(svc.sessions, key)`: removes any binding of `key` (a
Go map holds at most one). -/
def regErase (reg : Registry) (key : String) : Registry :=
  reg.filter (fun e => e.1 != key)

/-- Map write `svc.sessions[key] = session`: binds `key` to `session`,
replacing any previous binding (Go map assignment). -/
def regSet (reg : Registry) (key : String) (v : PreviewSession) : Registry :=
  (key, v) :: regErase reg key

/-- Observable process side effects of the supervisor, recorded as a trace:
spawning a long-running child, force-killing it (`Process.Kill`), cancelling
its execution context, and the short-lived tailscale configuration commands. -/
inductive Action where
  | spawn (pid : Nat)
  | kill (pid : Nat)
  | cancelCtx (id : Nat)
  | tsServe
  | tsFunnelOn
  | tsStatus
  | tsFunnelOff
  | tsServeReset
deriving DecidableEq

/-- Outcome of the three-way `select` in `startDevServer`
(`preview.go:269-279`): which event fired first — a scanned output line (the
scanning goroutine forwards the first line whose `extractPort` is nonzero),
the dev server exiting with an error, or the 20-second deadline. -/
inductive DevRace where
  | ready (line : String)
  | earlyExit (msg : String)
  | timeout
deriving DecidableEq

/-- Outcome of the three-way `select` in `startNgrokTunnel`
(`preview.go:414-424`): the scanned public URL, an early exit, or the
20-second deadline. URL extraction from the JSON log line
(`extractNgrokURL`) is abstracted into the race oracle; no claim depends on
it. -/
inductive NgrokRace where
  | url (u : String)
  | earlyExit (msg : String)
  | timeout
deriving DecidableEq

/-- Oracle for everything the supervisor consumes from the outside world:
file-system stat results, pipe/start success of child processes, the
readiness races, environment variables (`os.Getenv`), and binary lookup
(`exec.LookPath`). Fresh handle identifiers for spawned processes and their
contexts are also drawn from here. -/
structure Env where
  hasPackageJson : String → Bool
  devPipesOk : Bool
  devStartOk : Bool
  devPid : Nat
  devCtxId : Nat
  devRace : DevRace
  previewTunnel : String
  installed : String → Bool
  ngrokBinEnv : String
  tailscaleBinEnv : String
  ngrokPipesOk : Bool
  ngrokStartOk : Bool
  ngrokPid : Nat
  ngrokCtxId : Nat
  ngrokRace : NgrokRace
  tailscaleServeOk : Bool
  tailscaleFunnelOk : Bool
  tailscaleStatusDNS : Option String

/-- Successful result of `startDevServer`: the discovered port, and the dev
command / cancel-context handles (`preview.go:271`). -/
structure DevOk where
  port : Int
  pid : Nat
  ctxId : Nat
deriving DecidableEq

/-- Successful result of `startTunnel`: the public URL and the (optional)
tunnel command / cancel-context handles; both are `none` for the tailscale
backend (`preview.go:471`). -/
structure TunnelOk where
  url : String
  pid : Option Nat
  ctxId : Option Nat
deriving DecidableEq

/-- Embedding of `startDevServer` (`preview.go:204-280`). Branch structure
follows the source: the `package.json` stat guard (no context created, no
process spawned), pipe creation (failure cancels the fresh context),
`cmd.Start` (failure cancels the context; the child never ran), then the
three-way readiness race. In the `ready` case the port is
`extractPort line`; the scanning goroutine only signals on a nonzero port, so
a `ready` line with `extractPort line = 0` is unrealizable — it is resolved
like the deadline branch to keep the function total. -/
def startDevServer (env : Env) (repoPath : String) :
    Except String DevOk × List Action :=
  if env.hasPackageJson repoPath = false then
    (.error "package.json not found; unable to run yarn dev", [])
  else if env.devPipesOk = false then
    (.error "dev pipe error", [.cancelCtx env.devCtxId])
  else if env.devStartOk = false then
    (.error "dev start error", [.cancelCtx env.devCtxId])
  else
    match env.devRace with
    | .ready line =>
      if extractPort line ≠ 0 then
        (.ok ⟨extractPort line, env.devPid, env.devCtxId⟩, [.spawn env.devPid])
      else
        (.error "timed out waiting for dev server port",
         [.spawn env.devPid, .cancelCtx env.devCtxId, .kill env.devPid])
    | .earlyExit msg =>
      (.error ("dev server exited early: " ++ msg),
       [.spawn env.devPid, .cancelCtx env.devCtxId])
    | .timeout =>
      (.error "timed out waiting for dev server port",
       [.spawn env.devPid, .cancelCtx env.devCtxId, .kill env.devPid])

/-- Approximation of Go `%q` for the plain backend names appearing here. -/
def goQuote (s : String) : String := "\"" ++ s ++ "\""

/-- Embedding of `pickTunnel` (`preview.go:313-337`). `goTrimSpace` and
`goToLower` model `strings.TrimSpace` / `strings.ToLower`. `env.previewTunnel`
is `os.Getenv("PREVIEW_TUNNEL")` and `env.installed` is a successful
`exec.LookPath`. -/
def pickTunnel (env : Env) (override : String) : Except String String :=
  if goTrimSpace override ≠ "" then
    if goToLower (goTrimSpace override) = "ngrok" || goToLower (goTrimSpace override) = "tailscale" then
      .ok (goToLower (goTrimSpace override))
    else .error ("unknown tunnel " ++ goQuote override)
  else
    if goToLower (goTrimSpace env.previewTunnel) ≠ "" then
      if goToLower (goTrimSpace env.previewTunnel) = "ngrok" ||
          goToLower (goTrimSpace env.previewTunnel) = "tailscale" then
        .ok (goToLower (goTrimSpace env.previewTunnel))
      else .error ("unknown PREVIEW_TUNNEL " ++ goQuote (goToLower (goTrimSpace env.previewTunnel)))
    else if env.installed "ngrok" then .ok "ngrok"
    else if env.installed "tailscale" then .ok "tailscale"
    else .error "no tunnel binary found (install ngrok or tailscale)"

/-- Embedding of `startNgrokTunnel` (`preview.go:350-425`): resolve the
binary (`NGROK_BIN` falling back to `ngrok`), look it up, create pipes, start
the process, then the three-way URL race. -/
def startNgrokTunnel (env : Env) (_port : Int) :
    Except String TunnelOk × List Action :=
  let bin := if goTrimSpace env.ngrokBinEnv = "" then "ngrok" else goTrimSpace env.ngrokBinEnv
  if env.installed bin = false then
    (.error "ngrok not found", [])
  else if env.ngrokPipesOk = false then
    (.error "ngrok pipe error", [.cancelCtx env.ngrokCtxId])
  else if env.ngrokStartOk = false then
    (.error "ngrok start error", [.cancelCtx env.ngrokCtxId])
  else
    match env.ngrokRace with
    | .url u =>
      (.ok ⟨u, some env.ngrokPid, some env.ngrokCtxId⟩, [.spawn env.ngrokPid])
    | .earlyExit msg =>
      (.error ("ngrok exited early: " ++ msg),
       [.spawn env.ngrokPid, .cancelCtx env.ngrokCtxId])
    | .timeout =>
      (.error "timed out waiting for ngrok url",
       [.spawn env.ngrokPid, .cancelCtx env.ngrokCtxId, .kill env.ngrokPid])

/-- Embedding of `startTailscaleFunnel` plus `tailscalePublicURL`
(`preview.go:443-494`): resolve the binary, look it up, run `serve` then
`funnel 443 on` synchronously, then query status; `tailscaleStatusDNS` models
the parsed `Self.DNSName` (`none` = status command or JSON parse failed,
`some ""` = empty DNS name). The backend returns no long-running handles. -/
def startTailscaleFunnel (env : Env) (_port : Int) :
    Except String TunnelOk × List Action :=
  let bin :=
    if goTrimSpace env.tailscaleBinEnv = "" then "tailscale" else goTrimSpace env.tailscaleBinEnv
  if env.installed bin = false then
    (.error "tailscale not found", [])
  else if env.tailscaleServeOk = false then
    (.error "tailscale serve failed", [.tsServe])
  else if env.tailscaleFunnelOk = false then
    (.error "tailscale funnel failed", [.tsServe, .tsFunnelOn])
  else
    match env.tailscaleStatusDNS with
    | none =>
      (.error "tailscale status failed", [.tsServe, .tsFunnelOn, .tsStatus])
    | some dns =>
      if dns = "" then
        (.error "tailscale DNS name not found in status",
         [.tsServe, .tsFunnelOn, .tsStatus])
      else
        (.ok ⟨"https://" ++ dns ++ "/", none, none⟩,
         [.tsServe, .tsFunnelOn, .tsStatus])

/-- Embedding of `startTunnel` (`preview.go:339-348`): dispatch on the
selected backend tag. -/
def startTunnel (env : Env) (tunnel : String) (port : Int) :
    Except String TunnelOk × List Action :=
  if tunnel = "ngrok" then startNgrokTunnel env port
  else if tunnel = "tailscale" then startTailscaleFunnel env port
  else (.error ("unknown tunnel " ++ goQuote tunnel), [])

/-- Embedding of `stopTailscaleFunnel` (`preview.go:496-507`): if the binary
resolves, issue `funnel 443 off` and `serve reset`, ignoring their errors. -/
def stopTailscaleFunnel (env : Env) : List Action :=
  let bin :=
    if goTrimSpace env.tailscaleBinEnv = "" then "tailscale" else goTrimSpace env.tailscaleBinEnv
  if env.installed bin = false then []
  else [.tsFunnelOff, .tsServeReset]

/-- Embedding of `StartPreview` (`preview.go:90-145`). The result is the Go
return value, the registry after the call, and the trace of process side
effects. Branches follow the source: empty-path guard; registry
short-circuit; dev-server launch; tunnel selection (failure cancels and kills
the dev server); tunnel launch (ditto); session construction and registry
insert. The detached monitor goroutine is outside this sequential embedding. -/
def StartPreview (env : Env) (reg : Registry) (chatID : Int) (threadID : Int)
    (repoPath : String) (tunnelOverride : String) :
    Except String PreviewSession × Registry × List Action :=
  if repoPath = "" then (.error "repo path is empty", reg, [])
  else
    match regGet reg (topicKey chatID threadID) with
    | some session => (.ok session, reg, [])
    | none =>
      match startDevServer env repoPath with
      | (.error e, devActs) => (.error e, reg, devActs)
      | (.ok dev, devActs) =>
        match pickTunnel env tunnelOverride with
        | .error e =>
          (.error e, reg, devActs ++ [.cancelCtx dev.ctxId, .kill dev.pid])
        | .ok tunnel =>
          match startTunnel env tunnel dev.port with
          | (.error e, tunActs) =>
            (.error e, reg,
             devActs ++ tunActs ++ [.cancelCtx dev.ctxId, .kill dev.pid])
          | (.ok tun, tunActs) =>
            (.ok { chatID := chatID, threadID := threadID, repoPath := repoPath,
                   tunnel := tunnel, url := tun.url, port := dev.port,
                   devPid := some dev.pid, devCtx := some dev.ctxId,
                   devExit := true, tunnelPid := tun.pid, tunnelCtx := tun.ctxId },
             regSet reg (topicKey chatID threadID)
               { chatID := chatID, threadID := threadID, repoPath := repoPath,
                 tunnel := tunnel, url := tun.url, port := dev.port,
                 devPid := some dev.pid, devCtx := some dev.ctxId,
                 devExit := true, tunnelPid := tun.pid, tunnelCtx := tun.ctxId },
             devActs ++ tunActs)

/-- Embedding of `StopPreview` (`preview.go:147-179`). The first component is
the Go `error` return (always `nil` = `none`); then the registry after the
unconditional delete, and the teardown trace in source order: cancel the
tunnel context if non-nil, kill the tunnel process if non-nil, cancel the dev
context if non-nil, kill the dev process if non-nil, and for the tailscale
backend the funnel/serve teardown commands. -/
def StopPreview (env : Env) (reg : Registry) (chatID : Int) (threadID : Int) :
    Option String × Registry × List Action :=
  match regGet reg (topicKey chatID threadID) with
  | none => (none, regErase reg (topicKey chatID threadID), [])
  | some s =>
    (none, regErase reg (topicKey chatID threadID),
     (match s.tunnelCtx with
      | some c => [Action.cancelCtx c]
      | none => []) ++
     (match s.tunnelPid with
      | some p => [Action.kill p]
      | none => []) ++
     (match s.devCtx with
      | some c => [Action.cancelCtx c]
      | none => []) ++
     (match s.devPid with
      | some p => [Action.kill p]
      | none => []) ++
     (if s.tunnel = "tailscale" then stopTailscaleFunnel env else []))

/-- Embedding of `PreviewStatus` (`preview.go:181-190`): a pure registry
read returning `(session, found)`. -/
def PreviewStatus (reg : Registry) (chatID : Int) (threadID : Int) :
    Option PreviewSession × Bool :=
  match regGet reg (topicKey chatID threadID) with
  | none => (none, false)
  | some s => (some s, true)

/-- Model of Go `strings.SplitN(s, sep, 2)`: at most two pieces, the second
being the unsplit remainder. -/
def splitN2 (s : String) (sep : String) : List String :=
  match s.splitOn sep with
  | [] => [s]
  | [x] => [x]
  | x :: rest => [x, String.intercalate sep rest]

/-- One iteration of the `Shutdown` loop (`preview.go:79-87`): split the key
at the first colon; keys that do not split into two parts are skipped; parse
failures yield 0 (Go `ParseInt`/`Atoi` return 0 together with the ignored
error); then `StopPreview`. -/
def shutdownStep (env : Env) (acc : Registry × List Action) (key : String) :
    Registry × List Action :=
  match splitN2 key ":" with
  | [a, b] =>
    let chatID := (a.toInt?).getD 0
    let threadID := (b.toInt?).getD 0
    let r := StopPreview env acc.1 chatID threadID
    (r.2.1, acc.2 ++ r.2.2)
  | _ => acc

/-- Embedding of `Shutdown` (`preview.go:71-88`): snapshot the registered
keys under the lock, then sequentially `StopPreview` each parsed topic. -/
def Shutdown (env : Env) (reg : Registry) : Registry × List Action :=
  (reg.map Prod.fst).foldl (shutdownStep env) (reg, [])

/-- The registry invariant of spec §3/§8: the key column is duplicate-free,
so each topic identity has at most one Session. -/
def keysNodup (reg : Registry) : Prop := (reg.map Prod.fst).Nodup

instance (reg : Registry) : Decidable (keysNodup reg) := by
  unfold keysNodup; infer_instance

/-- Number of sessions registered under one topic key. -/
def countKey (reg : Registry) (k : String) : Nat :=
  reg.countP (fun e => e.1 == k)

/-- Processes still running after a trace: spawned and not subsequently
killed. -/
def runningAfter (acts : List Action) : List Nat :=
  acts.foldl
    (fun running a =>
      match a with
      | .spawn p => running ++ [p]
      | .kill p => running.filter (fun q => q != p)
      | _ => running)
    []

/-- Deleting a key that is not bound leaves the registry unchanged (the Go
map delete of an absent key is a no-op). -/
theorem regGet_none_erase (reg : Registry) (key : String)
    (h : regGet reg key = none) : regErase reg key = reg := by
  induction reg with
  | nil => rfl
  | cons e t ih =>
    obtain ⟨k, v⟩ := e
    by_cases hk : k = key
    · simp [regGet, hk] at h
    · simp only [regGet, if_neg hk] at h
      have hkb : (((k, v) : String × PreviewSession).1 != key) = true := by
        simp [bne_iff_ne, hk]
      unfold regErase
      rw [List.filter_cons, if_pos hkb]
      exact congrArg (List.cons (k, v)) (ih h)

/-- Erasing preserves duplicate-freedom of the key column. -/
theorem keysNodup_regErase (reg : Registry) (key : String)
    (h : keysNodup reg) : keysNodup (regErase reg key) := by
  unfold keysNodup at h ⊢
  exact h.sublist ((List.filter_sublist reg).map Prod.fst)

/-- The erased key does not occur in the key column of the result. -/
theorem not_mem_keys_regErase (reg : Registry) (key : String) :
    key ∉ (regErase reg key).map Prod.fst := by
  intro hmem
  obtain ⟨e, he, hk⟩ := List.mem_map.mp hmem
  have := List.of_mem_filter he
  rw [hk] at this
  simp at this

/-- Map assignment preserves duplicate-freedom of the key column. -/
theorem keysNodup_regSet (reg : Registry) (key : String) (v : PreviewSession)
    (h : keysNodup reg) : keysNodup (regSet reg key v) := by
  unfold keysNodup regSet
  rw [List.map_cons]
  exact List.nodup_cons.mpr
    ⟨not_mem_keys_regErase reg key, keysNodup_regErase reg key h⟩

/-- A duplicate-free key column bounds each key count by one. -/
theorem countKey_le_one_of_keysNodup (reg : Registry) (k : String)
    (h : keysNodup reg) : countKey reg k ≤ 1 := by
  induction reg with
  | nil => simp [countKey]
  | cons e t ih =>
    unfold keysNodup at h
    rw [List.map_cons, List.nodup_cons] at h
    obtain ⟨hnot, ht⟩ := h
    unfold countKey at ih ⊢
    rw [List.countP_cons]
    by_cases hk : e.1 = k
    · have hz : t.countP (fun e => e.1 == k) = 0 := by
        apply List.countP_eq_zero.mpr
        intro x hx
        simp only [beq_iff_eq]
        intro hxk
        exact hnot (hk ▸ hxk ▸ List.mem_map_of_mem Prod.fst hx)
      simp [hz, hk]
    · simp [hk, ih ht]

/-- The registry left by `StopPreview` is exactly the erase of the topic
key, on both the present and the absent branch. -/
theorem StopPreview_state (env : Env) (reg : Registry) (chatID threadID : Int) :
    (StopPreview env reg chatID threadID).2.1 =
      regErase reg (topicKey chatID threadID) := by
  unfold StopPreview
  split <;> rfl

/-- StopPreview preserves the registry invariant. -/
theorem keysNodup_StopPreview (env : Env) (reg : Registry)
    (chatID threadID : Int) (h : keysNodup reg) :
    keysNodup (StopPreview env reg chatID threadID).2.1 := by
  rw [StopPreview_state]
  exact keysNodup_regErase reg _ h

/-- StartPreview preserves the registry invariant: every branch leaves the
registry unchanged except the success branch, which performs one map
assignment. -/
theorem keysNodup_StartPreview (env : Env) (reg : Registry)
    (chatID threadID : Int) (repoPath tunnelOverride : String)
    (h : keysNodup reg) :
    keysNodup (StartPreview env reg chatID threadID repoPath tunnelOverride).2.1 := by
  unfold StartPreview
  split
  · exact h
  · split
    · exact h
    · split
      · exact h
      · split
        · exact h
        · split
          · exact h
          · exact keysNodup_regSet reg _ _ h

/-- The shutdown loop preserves the registry invariant from any accumulator. -/
theorem keysNodup_shutdownLoop (env : Env) (keys : List String) :
    ∀ p : Registry × List Action, keysNodup p.1 →
      keysNodup ((keys.foldl (shutdownStep env) p).1) := by
  induction keys with
  | nil => intro p hp; simpa using hp
  | cons k t ih =>
    intro p hp
    rw [List.foldl_cons]
    apply ih
    unfold shutdownStep
    split
    · exact keysNodup_StopPreview env p.1 _ _ hp
    · exact hp

/-- Concrete oracle used by the witnesses: no manifest anywhere, no binary
installed, no environment default, and the readiness races time out. -/
def env0 : Env where
  hasPackageJson := fun _ => false
  devPipesOk := true
  devStartOk := true
  devPid := 1
  devCtxId := 2
  devRace := .timeout
  previewTunnel := ""
  installed := fun _ => false
  ngrokBinEnv := ""
  tailscaleBinEnv := ""
  ngrokPipesOk := true
  ngrokStartOk := true
  ngrokPid := 3
  ngrokCtxId := 4
  ngrokRace := .timeout
  tailscaleServeOk := true
  tailscaleFunnelOk := true
  tailscaleStatusDNS := none

/-- Concrete session used by the witnesses. -/
def sessionA : PreviewSession where
  chatID := 1
  threadID := 2
  repoPath := "/workspace/app"
  tunnel := "ngrok"
  url := "https://example.ngrok.app"
  port := 4321
  devPid := some 1
  devCtx := some 2
  devExit := true
  tunnelPid := some 3
  tunnelCtx := some 4

/-- Concrete one-session registry used by the witnesses. -/
def reg0 : Registry := [(topicKey 1 2, sessionA)]

/-- C1: on the line `Local: http://localhost:4321/` the spec demands port
4321 via the loopback-URL pattern, but the pattern compiled at
`preview.go:62` is a raw (backtick) string whose `\\` sequences denote a
literal backslash, so it does not match the line at all (first conjunct) and
`extractPort` returns 0 (second conjunct); the pattern the spec describes
(`devURLReIntended`) does yield 4321 (third conjunct). -/
theorem extractPort_url_line_code_bug :
    findStringSubmatch1 devURLRe "Local: http://localhost:4321/" = none ∧
    extractPort "Local: http://localhost:4321/" = 0 ∧
    extractPortIntended "Local: http://localhost:4321/" = 4321 :=
  ⟨by decide, by decide, by decide⟩

/-- C2: on the line `Server listening on 8080` the spec demands port 8080 via
the fallback pattern, but the pattern compiled at `preview.go:63` requires a
literal backslash before a (case-insensitive) `b` around the keyword and a
literal `\d`-shaped capture, so it does not match the line (first conjunct)
and `extractPort` returns 0 (second conjunct); the pattern the spec describes
(`portLineReIntended`, inside `extractPortIntended`) does yield 8080 (third
conjunct). -/
theorem extractPort_listening_line_code_bug :
    findStringSubmatch1 portLineRe "Server listening on 8080" = none ∧
    extractPort "Server listening on 8080" = 0 ∧
    extractPortIntended "Server listening on 8080" = 8080 :=
  ⟨by decide, by decide, by decide⟩

/-- C3: when a session is already registered for the topic (and the repo
path is non-empty, as on any successful first call), `StartPreview` returns
that exact session with no error, leaves the registry unchanged, and
performs no process side effect at all. -/
theorem startPreview_idempotent (env : Env) (reg : Registry)
    (chatID threadID : Int) (repoPath tunnelOverride : String)
    (s : PreviewSession) (hrp : repoPath ≠ "")
    (hs : regGet reg (topicKey chatID threadID) = some s) :
    StartPreview env reg chatID threadID repoPath tunnelOverride =
      (.ok s, reg, []) := by
  unfold StartPreview
  rw [if_neg hrp, hs]

/-- Witness for C3 at a concrete registry holding `sessionA` under topic
`(1, 2)`. -/
theorem startPreview_idempotent_witness :
    StartPreview env0 reg0 1 2 "/workspace/app" "" = (.ok sessionA, reg0, []) :=
  startPreview_idempotent env0 reg0 1 2 "/workspace/app" "" sessionA
    (by decide) (by decide)

/-- C4: the registry holds at most one session per topic key. The invariant
`keysNodup` (duplicate-free key column) holds initially (`Configure` installs
an empty map), bounds every per-key session count by one, and is preserved by
`StartPreview`, `StopPreview` and `Shutdown`; `PreviewStatus` is a pure read
and does not produce a registry at all in this embedding. -/
theorem registry_at_most_one_session :
    keysNodup ([] : Registry) ∧
    (∀ reg : Registry, keysNodup reg → ∀ k, countKey reg k ≤ 1) ∧
    (∀ (env : Env) (reg : Registry) (chatID threadID : Int)
        (repoPath tunnelOverride : String), keysNodup reg →
      keysNodup (StartPreview env reg chatID threadID repoPath tunnelOverride).2.1) ∧
    (∀ (env : Env) (reg : Registry) (chatID threadID : Int), keysNodup reg →
      keysNodup (StopPreview env reg chatID threadID).2.1) ∧
    (∀ (env : Env) (reg : Registry), keysNodup reg →
      keysNodup (Shutdown env reg).1) :=
  ⟨List.nodup_nil,
   fun reg h k => countKey_le_one_of_keysNodup reg k h,
   fun env reg c t rp ov h => keysNodup_StartPreview env reg c t rp ov h,
   fun env reg c t h => keysNodup_StopPreview env reg c t h,
   fun env reg h => keysNodup_shutdownLoop env (reg.map Prod.fst) (reg, []) h⟩

/-- Witness for C4: the invariant holds of the concrete registry `reg0` and
is carried through a concrete `StartPreview` call. -/
theorem registry_at_most_one_session_witness :
    keysNodup (StartPreview env0 reg0 1 2 "/workspace/app" "").2.1 :=
  registry_at_most_one_session.2.2.1 env0 reg0 1 2 "/workspace/app" ""
    (by decide)

/-- C5: whenever `StartPreview` returns one of the startup-path errors (the
empty-path guard excluded by `hrp`; spec §7 lists manifest/backend
configuration, process start, early exit and timeout), the registry is
unchanged and no session is registered for the topic; and if the dev server
had launched successfully, the returned trace kills the dev server: it
contains the cancellation of its context and the kill of its process. -/
theorem startPreview_error_no_session (env : Env) (reg : Registry)
    (chatID threadID : Int) (repoPath tunnelOverride : String)
    (e : String) (reg' : Registry) (acts : List Action)
    (hrp : repoPath ≠ "")
    (h : StartPreview env reg chatID threadID repoPath tunnelOverride =
      (.error e, reg', acts)) :
    reg' = reg ∧ regGet reg (topicKey chatID threadID) = none ∧
    (∀ (dev : DevOk) (devActs : List Action),
      startDevServer env repoPath = (.ok dev, devActs) →
      Action.cancelCtx dev.ctxId ∈ acts ∧ Action.kill dev.pid ∈ acts) := by
  unfold StartPreview at h
  rw [if_neg hrp] at h
  split at h
  · simp at h
  · rename_i hreg
    split at h
    · rename_i e1 devActs1 hdev1
      simp only [Prod.mk.injEq, Except.error.injEq] at h
      refine ⟨h.2.1.symm, hreg, ?_⟩
      intro dev devActs hdev
      rw [hdev] at hdev1
      simp at hdev1
    · rename_i dev1 devActs1 hdev1
      split at h
      · rename_i e1 hpick
        simp only [Prod.mk.injEq, Except.error.injEq] at h
        refine ⟨h.2.1.symm, hreg, ?_⟩
        intro dev devActs hdev
        rw [hdev] at hdev1
        simp only [Prod.mk.injEq, Except.ok.injEq] at hdev1
        rw [← h.2.2, hdev1.1]
        constructor <;> simp
      · rename_i tunnel1 hpick
        split at h
        · rename_i e1 tunActs1 htun
          simp only [Prod.mk.injEq, Except.error.injEq] at h
          refine ⟨h.2.1.symm, hreg, ?_⟩
          intro dev devActs hdev
          rw [hdev] at hdev1
          simp only [Prod.mk.injEq, Except.ok.injEq] at hdev1
          rw [← h.2.2, hdev1.1]
          constructor <;> simp
        · simp at h

/-- Witness for C5: a concrete erroring call (missing manifest) leaves the
empty registry without a session for topic `(1, 2)`. -/
theorem startPreview_error_no_session_witness :
    regGet ([] : Registry) (topicKey 1 2) = none :=
  (startPreview_error_no_session env0 [] 1 2 "/workspace/app" ""
    "package.json not found; unable to run yarn dev" [] []
    (by decide) (by rfl)).2.1

/-- C6: tunnel backend selection in `pickTunnel`. A non-blank explicit
override wins over everything when it names a recognized backend (first
conjunct) and is a configuration error otherwise, never falling back (second
conjunct); with a blank override, a non-blank environment default wins over
installed binaries (third conjunct, recognized values) or errors
(fourth conjunct, unrecognized values); with neither set, the first
installed binary in the order ngrok, tailscale is chosen, and if none is
installed the no-binary configuration error is returned (last conjunct). -/
theorem pickTunnel_precedence (env : Env) (override : String) :
    (goTrimSpace override ≠ "" →
      (goToLower (goTrimSpace override) = "ngrok" ∨ goToLower (goTrimSpace override) = "tailscale") →
      pickTunnel env override = .ok (goToLower (goTrimSpace override))) ∧
    (goTrimSpace override ≠ "" → goToLower (goTrimSpace override) ≠ "ngrok" →
      goToLower (goTrimSpace override) ≠ "tailscale" →
      pickTunnel env override = .error ("unknown tunnel " ++ goQuote override)) ∧
    (goTrimSpace override = "" → goToLower (goTrimSpace env.previewTunnel) ≠ "" →
      (goToLower (goTrimSpace env.previewTunnel) = "ngrok" ∨
        goToLower (goTrimSpace env.previewTunnel) = "tailscale") →
      pickTunnel env override = .ok (goToLower (goTrimSpace env.previewTunnel))) ∧
    (goTrimSpace override = "" → goToLower (goTrimSpace env.previewTunnel) ≠ "" →
      goToLower (goTrimSpace env.previewTunnel) ≠ "ngrok" →
      goToLower (goTrimSpace env.previewTunnel) ≠ "tailscale" →
      pickTunnel env override =
        .error ("unknown PREVIEW_TUNNEL " ++ goQuote (goToLower (goTrimSpace env.previewTunnel)))) ∧
    (goTrimSpace override = "" → goToLower (goTrimSpace env.previewTunnel) = "" →
      (env.installed "ngrok" = true → pickTunnel env override = .ok "ngrok") ∧
      (env.installed "ngrok" = false → env.installed "tailscale" = true →
        pickTunnel env override = .ok "tailscale") ∧
      (env.installed "ngrok" = false → env.installed "tailscale" = false →
        pickTunnel env override =
          .error "no tunnel binary found (install ngrok or tailscale)")) := by
  refine ⟨?_, ?_, ?_, ?_, ?_⟩
  · intro h1 h2
    unfold pickTunnel
    rw [if_pos h1]
    rcases h2 with h2 | h2 <;> simp [h2]
  · intro h1 h2 h3
    unfold pickTunnel
    rw [if_pos h1]
    simp [h2, h3]
  · intro h1 h2 h3
    unfold pickTunnel
    rw [if_neg (by simpa using h1), if_pos h2]
    rcases h3 with h3 | h3 <;> simp [h3]
  · intro h1 h2 h3 h4
    unfold pickTunnel
    rw [if_neg (by simpa using h1), if_pos h2]
    simp [h3, h4]
  · intro h1 h2
    refine ⟨?_, ?_, ?_⟩
    · intro hn
      unfold pickTunnel
      rw [if_neg (by simpa using h1), if_neg (by simpa using h2), if_pos hn]
    · intro hn ht
      unfold pickTunnel
      rw [if_neg (by simpa using h1), if_neg (by simpa using h2),
        if_neg (by simp [hn]), if_pos ht]
    · intro hn ht
      unfold pickTunnel
      rw [if_neg (by simpa using h1), if_neg (by simpa using h2),
        if_neg (by simp [hn]), if_neg (by simp [ht])]

/-- Witness for C6: the override `ngrok` is honored although the environment
default is `tailscale` and no binary is installed. -/
theorem pickTunnel_precedence_witness :
    pickTunnel { env0 with previewTunnel := "tailscale" } "ngrok" = .ok "ngrok" :=
  (pickTunnel_precedence { env0 with previewTunnel := "tailscale" } "ngrok").1
    (by decide) (Or.inl (by decide))

/-- C7: with no `package.json` in the workspace, `startDevServer` fails on
the stat guard with the configuration error and an empty side-effect trace:
no process was spawned. -/
theorem devServer_missing_manifest (env : Env) (repoPath : String)
    (h : env.hasPackageJson repoPath = false) :
    startDevServer env repoPath =
      (.error "package.json not found; unable to run yarn dev", []) := by
  unfold startDevServer
  rw [h]
  simp

/-- Witness for C7 at the concrete oracle without a manifest. -/
theorem devServer_missing_manifest_witness :
    startDevServer env0 "/workspace/app" =
      (.error "package.json not found; unable to run yarn dev", []) :=
  devServer_missing_manifest env0 "/workspace/app" rfl

/-- C8: `StopPreview` never returns a hard failure (its error component is
always `nil`), and stopping an unregistered topic is a complete no-op: the
registry is unchanged and the trace is empty (no kill, no cancel, no
tailscale teardown). -/
theorem stopPreview_nil_and_noop (env : Env) (reg : Registry)
    (chatID threadID : Int) :
    (StopPreview env reg chatID threadID).1 = none ∧
    (regGet reg (topicKey chatID threadID) = none →
      StopPreview env reg chatID threadID = (none, reg, [])) := by
  constructor
  · unfold StopPreview
    split <;> rfl
  · intro h
    unfold StopPreview
    rw [h, regGet_none_erase reg _ h]

/-- Witness for C8: stopping topic `(1, 2)` on the empty registry. -/
theorem stopPreview_nil_and_noop_witness :
    StopPreview env0 [] 1 2 = (none, [], []) :=
  (stopPreview_nil_and_noop env0 [] 1 2).2 (by decide)

/-- C9: when the deadline branch of the readiness race fires (no readiness
line was scanned within the fixed 20-second `time.After`), `startDevServer`
returns the timeout error with a trace that spawns the dev server, cancels
its context and force-kills it — in that order, all before returning — so
that no spawned process remains running after the trace. -/
theorem devServer_timeout_kills (env : Env) (repoPath : String)
    (hm : env.hasPackageJson repoPath = true) (hp : env.devPipesOk = true)
    (hs : env.devStartOk = true) (hr : env.devRace = .timeout) :
    startDevServer env repoPath =
      (.error "timed out waiting for dev server port",
       [.spawn env.devPid, .cancelCtx env.devCtxId, .kill env.devPid]) ∧
    runningAfter
      [.spawn env.devPid, .cancelCtx env.devCtxId, .kill env.devPid] = [] := by
  constructor
  · unfold startDevServer
    rw [hm, hp, hs, hr]
    simp
  · simp [runningAfter]

/-- Witness for C9 at a concrete oracle whose race times out. -/
theorem devServer_timeout_kills_witness :
    startDevServer { env0 with hasPackageJson := fun _ => true } "/workspace/app" =
      (.error "timed out waiting for dev server port",
       [.spawn 1, .cancelCtx 2, .kill 1]) :=
  (devServer_timeout_kills { env0 with hasPackageJson := fun _ => true }
    "/workspace/app" rfl rfl rfl rfl).1

/-- C10: calling `StartPreview` with an empty workspace path fails on the
very first guard, for every registry and oracle: the result does not depend
on the registry (it was not consulted), the registry is unchanged, and the
trace is empty (nothing spawned). -/
theorem startPreview_empty_path (env : Env) (reg : Registry)
    (chatID threadID : Int) (tunnelOverride : String) :
    StartPreview env reg chatID threadID "" tunnelOverride =
      (.error "repo path is empty", reg, []) := by
  unfold StartPreview
  rw [if_pos rfl]

end GoCode
